import Mathlib

set_option maxRecDepth 100000

/-!
# Verification of the Pure64 disk-image utility

Shallow embedding of the Pure64 repository's format/layout engine:

* the recursive directory/file tree codec of `src/lib/dir.c`
  (`pure64_dir_export` / `pure64_dir_import` and the insert operations),
* the CRC32 engine and GPT checksum pass of `src/util/pure64.c`
  (`crc32`, `calculate_header_checksum`, `calculate_partition_headers_checksum`,
  `calculate_checksums`),
* the disk-layout planner of `ramfs_export` and the `pure64_init` size
  validation and GPT header construction.

Machine integers are modelled as `Nat` with explicit `% 2 ^ 32` / `% 2 ^ 64`
where the C code relies on fixed-width behaviour.  Byte media (C `FILE`
streams) are modelled as `Nat → Nat` byte maps for the in-place checksum
pass, and as `List Nat` byte lists for the sequential tree codec.
-/

/- * * * * * * * * * * * * * * * * * * * * * * * * * * * * * * * * * * * * *
 * Fixed-width little-endian integer codec.
 * * * * * * * * * * * * * * * * * * * * * * * * * * * * * * * * * * * * * -/

/-- Modelled from the spec: `encode_uint64` lives in `src/lib/misc.c`, which is
not part of the provided sources.  Per spec §4.3/§9 the counts are written as
fixed-width 64-bit unsigned integers in a fixed byte order (little-endian).
The value is a C `uint64_t`, hence `< 2 ^ 64` at every call site. -/
def encode_uint64 (n : Nat) : List Nat :=
  [n % 256, n / 256 % 256, n / 256 ^ 2 % 256, n / 256 ^ 3 % 256,
   n / 256 ^ 4 % 256, n / 256 ^ 5 % 256, n / 256 ^ 6 % 256, n / 256 ^ 7 % 256]

/-- Modelled from the spec: `decode_uint64` from `src/lib/misc.c` (not in the
provided sources).  Reads exactly 8 bytes from the stream and fails (the
stream read fails) when fewer than 8 bytes remain. -/
def decode_uint64 : List Nat → Option (Nat × List Nat)
  | b0 :: b1 :: b2 :: b3 :: b4 :: b5 :: b6 :: b7 :: rest =>
      some (b0 + 256 * b1 + 256 ^ 2 * b2 + 256 ^ 3 * b3 + 256 ^ 4 * b4
        + 256 ^ 5 * b5 + 256 ^ 6 * b6 + 256 ^ 7 * b7, rest)
  | _ => none

/-- A stream read of `n` raw bytes: delivers exactly `n` bytes or fails
(`pure64_stream_read` treats a short transfer as an error, spec §4.1). -/
def stream_read_bytes (n : Nat) (input : List Nat) : Option (List Nat × List Nat) :=
  if n ≤ input.length then some (input.take n, input.drop n) else none

/- * * * * * * * * * * * * * * * * * * * * * * * * * * * * * * * * * * * * *
 * CRC32 engine (src/util/pure64.c, `crc32`, lines 68-91).
 * * * * * * * * * * * * * * * * * * * * * * * * * * * * * * * * * * * * * -/

/-- The inner 8-iteration loop of `crc32`: `mask = -(crc & 1)` in `uint32_t`
arithmetic is `0xFFFFFFFF` when the low bit is set and `0` otherwise, and
`crc = (crc >> 1) ^ (0xEDB88320 & mask)`. -/
def crc32_bits : Nat → Nat → Nat
  | 0, crc => crc
  | j + 1, crc =>
      crc32_bits j ((crc / 2 ^^^ (0xEDB88320 &&&
        (if crc % 2 = 1 then 0xFFFFFFFF else 0))) % 2 ^ 32)

/-- One byte of the `crc32` outer loop: `crc = crc ^ byte` (the byte is a
`uint8_t`, hence the `% 256`), then 8 bit iterations. -/
def crc32_step (crc b : Nat) : Nat :=
  crc32_bits 8 ((crc ^^^ b % 256) % 2 ^ 32)

/-- `crc32` from src/util/pure64.c: initial register `0xFFFFFFFF`, one
`crc32_step` per input byte, final bitwise complement (in `uint32_t`:
xor with `0xFFFFFFFF`). -/
def crc32 (buf : List Nat) : Nat :=
  (buf.foldl crc32_step 0xFFFFFFFF) ^^^ 0xFFFFFFFF

/- * * * * * * * * * * * * * * * * * * * * * * * * * * * * * * * * * * * * *
 * The directory/file tree (src/lib/dir.c).
 * Names and file data are byte lists; the C structs carry the lengths in
 * separate uint64_t fields (name_size, subdir_count, file_count, data_size),
 * which here are the list lengths.  In-memory names exclude the trailing
 * null terminator the C code appends (it is not written to the wire).
 * * * * * * * * * * * * * * * * * * * * * * * * * * * * * * * * * * * * * -/

structure pure64_file where
  name : List Nat
  data : List Nat
deriving DecidableEq

inductive pure64_dir where
  | mk (name : List Nat) (subdirs : List pure64_dir) (files : List pure64_file)

def pure64_dir.name : pure64_dir → List Nat
  | .mk n _ _ => n

def pure64_dir.subdirs : pure64_dir → List pure64_dir
  | .mk _ s _ => s

def pure64_dir.files : pure64_dir → List pure64_file
  | .mk _ _ f => f

/-- Modelled from the spec: `pure64_file_export` lives in `src/lib/file.c`,
which is not in the provided sources.  Spec §4.3: "File encoding mirrors the
directory header shape plus the raw data payload bytes" — name size and data
size as fixed-width 64-bit integers, then the raw name bytes, then the data
bytes. -/
def pure64_file_export (f : pure64_file) : List Nat :=
  encode_uint64 f.name.length ++ encode_uint64 f.data.length ++ f.name ++ f.data

def pure64_files_export : List pure64_file → List Nat
  | [] => []
  | f :: fs => pure64_file_export f ++ pure64_files_export fs

mutual

/-- `pure64_dir_export` (src/lib/dir.c lines 113-146): write `name_size`,
`subdir_count`, `file_count` as 64-bit integers, then the raw name bytes,
then every subdirectory recursively in order, then every file in order. -/
def pure64_dir_export : pure64_dir → List Nat
  | .mk name subdirs files =>
      encode_uint64 name.length ++ encode_uint64 subdirs.length ++
        encode_uint64 files.length ++ name ++ pure64_dirs_export subdirs ++
        pure64_files_export files

def pure64_dirs_export : List pure64_dir → List Nat
  | [] => []
  | d :: ds => pure64_dir_export d ++ pure64_dirs_export ds

end

/-- Modelled from the spec: `pure64_file_import` from `src/lib/file.c` (not in
the provided sources), mirroring `pure64_file_export`: read the two sizes,
then the name bytes, then the data bytes; any short read fails. -/
def pure64_file_import (input : List Nat) : Option (pure64_file × List Nat) :=
  match decode_uint64 input with
  | none => none
  | some (ns, r1) =>
    match decode_uint64 r1 with
    | none => none
    | some (ds, r2) =>
      match stream_read_bytes ns r2 with
      | none => none
      | some (name, r3) =>
        match stream_read_bytes ds r3 with
        | none => none
        | some (data, r4) => some (⟨name, data⟩, r4)

def pure64_files_import : Nat → List Nat → Option (List pure64_file × List Nat)
  | 0, input => some ([], input)
  | count + 1, input =>
    match pure64_file_import input with
    | none => none
    | some (f, r) =>
      match pure64_files_import count r with
      | none => none
      | some (fs, r2) => some (f :: fs, r2)

mutual

/-- `pure64_dir_import` (src/lib/dir.c lines 148-201), written against a byte
list with an explicit recursion-depth fuel (the C recursion is bounded by the
input, which the wrapper `pure64_dir_import` below supplies): read the three
counts, read the name bytes, then import `subdir_count` subdirectories and
`file_count` files in order. -/
def pure64_dir_importF : Nat → List Nat → Option (pure64_dir × List Nat)
  | 0, _ => none
  | fuel + 1, input =>
    match decode_uint64 input with
    | none => none
    | some (ns, r1) =>
      match decode_uint64 r1 with
      | none => none
      | some (sc, r2) =>
        match decode_uint64 r2 with
        | none => none
        | some (fc, r3) =>
          match stream_read_bytes ns r3 with
          | none => none
          | some (name, r4) =>
            match pure64_dirs_importF fuel sc r4 with
            | none => none
            | some (subdirs, r5) =>
              match pure64_files_import fc r5 with
              | none => none
              | some (files, r6) => some (.mk name subdirs files, r6)
termination_by fuel input => (fuel, 0)

def pure64_dirs_importF : Nat → Nat → List Nat → Option (List pure64_dir × List Nat)
  | _, 0, input => some ([], input)
  | fuel, count + 1, input =>
    match pure64_dir_importF fuel input with
    | none => none
    | some (d, r) =>
      match pure64_dirs_importF fuel count r with
      | none => none
      | some (ds, r2) => some (d :: ds, r2)
termination_by fuel count input => (fuel, count + 1)

end

/-- Decoding entry point: a decode of a byte list.  Every recursive call of
the C import consumes at least 24 bytes of input, so the input length bounds
the recursion depth and is a sufficient fuel. -/
def pure64_dir_import (input : List Nat) : Option (pure64_dir × List Nat) :=
  pure64_dir_importF input.length input

/- Well-formedness: every size field of the C structs is a `uint64_t`. -/

def pure64_file_wf (f : pure64_file) : Bool :=
  decide (f.name.length < 2 ^ 64) && decide (f.data.length < 2 ^ 64)

mutual

def pure64_dir_wf : pure64_dir → Bool
  | .mk name subdirs files =>
      decide (name.length < 2 ^ 64) && decide (subdirs.length < 2 ^ 64) &&
        decide (files.length < 2 ^ 64) && files.all pure64_file_wf &&
        pure64_dirs_wf subdirs

def pure64_dirs_wf : List pure64_dir → Bool
  | [] => true
  | d :: ds => pure64_dir_wf d && pure64_dirs_wf ds

end

/- Unique sibling names (the tree invariant maintained by the inserts). -/

def names_nodup : List (List Nat) → Bool
  | [] => true
  | n :: ns => (!ns.contains n) && names_nodup ns

mutual

def pure64_dir_unique_names : pure64_dir → Bool
  | .mk _ subdirs files =>
      names_nodup (files.map pure64_file.name ++ subdirs.map pure64_dir.name) &&
        pure64_dirs_unique_names subdirs

def pure64_dirs_unique_names : List pure64_dir → Bool
  | [] => true
  | d :: ds => pure64_dir_unique_names d && pure64_dirs_unique_names ds

end

/- Recursion depth of a tree. -/

mutual

def pure64_dir_depth : pure64_dir → Nat
  | .mk _ subdirs _ => pure64_dirs_depth subdirs + 1

def pure64_dirs_depth : List pure64_dir → Nat
  | [] => 0
  | d :: ds => max (pure64_dir_depth d) (pure64_dirs_depth ds)

end
/-- A small concrete tree: a root holding one file `"hi"` and one
subdirectory `"bin"` that itself holds one file `"a"` with data bytes. -/
def sample_tree : pure64_dir :=
  .mk [] [.mk [98, 105, 110] [] [⟨[97], [1, 2, 3]⟩]] [⟨[104, 105], [255]⟩]

/- * * * * * * * * * * * * * * * * * * * * * * * * * * * * * * * * * * * * *
 * Insert operations (src/lib/dir.c lines 47-111, 203-218).
 * * * * * * * * * * * * * * * * * * * * * * * * * * * * * * * * * * * * * -/

/-- Modelled from the spec: `pure64/error.h` is not in the provided sources;
spec §7 only distinguishes the error classes, so the duplicate-name code is a
fixed nonzero value. -/
def PURE64_EEXIST : Nat := 1

/-- Modelled from the spec: the allocation-failure code from `pure64/error.h`
(not in the provided sources), a fixed nonzero value distinct from
`PURE64_EEXIST`. -/
def PURE64_ENOMEM : Nat := 2

/-- `pure64_dir_name_exists` (src/lib/dir.c lines 203-218): the name collides
when some existing file or some existing subdirectory carries it. -/
def pure64_dir_name_exists (d : pure64_dir) (name : List Nat) : Bool :=
  d.files.any (fun f => f.name == name) || d.subdirs.any (fun s => s.name == name)

/-- `pure64_dir_add_file` (src/lib/dir.c lines 47-78).  The host allocator
(`pure64_realloc`) and `pure64_file_set_name` can fail at run time; their
outcomes are oracle parameters: `alloc_ok = false` models a `NULL` return
from `pure64_realloc`, `set_name_err ≠ 0` models the error code returned by
`pure64_file_set_name`.  Only on full success is the new file — initialized
empty by `pure64_file_init`, then given `name` — appended and `file_count`
incremented. -/
def pure64_dir_add_file (alloc_ok : Bool) (set_name_err : Nat)
    (d : pure64_dir) (name : List Nat) : Nat × pure64_dir :=
  if pure64_dir_name_exists d name then (PURE64_EEXIST, d)
  else if alloc_ok = false then (PURE64_ENOMEM, d)
  else if set_name_err ≠ 0 then (set_name_err, d)
  else (0, .mk d.name d.subdirs (d.files ++ [⟨name, []⟩]))

/-- `pure64_dir_add_subdir` (src/lib/dir.c lines 80-111), the mirror image of
`pure64_dir_add_file` for subdirectories (`pure64_dir_init` then
`pure64_dir_set_name`). -/
def pure64_dir_add_subdir (alloc_ok : Bool) (set_name_err : Nat)
    (d : pure64_dir) (name : List Nat) : Nat × pure64_dir :=
  if pure64_dir_name_exists d name then (PURE64_EEXIST, d)
  else if alloc_ok = false then (PURE64_ENOMEM, d)
  else if set_name_err ≠ 0 then (set_name_err, d)
  else (0, .mk d.name (d.subdirs ++ [.mk name [] []]) d.files)

/-- A directory holding the file `"a"` and the subdirectory `"b"`. -/
def dup_dir : pure64_dir := .mk [] [.mk [98] [] []] [⟨[97], [7]⟩]

/- * * * * * * * * * * * * * * * * * * * * * * * * * * * * * * * * * * * * *
 * Disk layout planner (`ramfs_export`, src/util/pure64.c).
 * * * * * * * * * * * * * * * * * * * * * * * * * * * * * * * * * * * * * -/

/-- The sector-rounding idiom of `ramfs_export`: `((x + 511) / 512) * 512`. -/
def round_to_sector (x : Nat) : Nat := (x + 511) / 512 * 512

/-- The stage-binary ceiling check of `ramfs_export` (src/util/pure64.c lines
448-456): a stage binary passes when `(size + 511) / 512` does not exceed
`0x7f`, the maximum sector count of the BIOS read used during boot. -/
def stage_size_ok (size : Nat) : Bool := decide ((size + 511) / 512 ≤ 0x7f)

/-- The offsets computed by `ramfs_export` (src/util/pure64.c lines 477-485):
`st2_offset = 0x2000`, `st3_offset = 0x2000 + s2`,
`fs_offset = st3_offset + s3` (from the *unrounded* `st3_offset`), then each
is rounded up to the next 512-byte sector.  Returns
`(st2_offset, st3_offset, fs_offset)`. -/
def ramfs_layout (s2 s3 : Nat) : Nat × Nat × Nat :=
  let st2_offset := 0x2000
  let st3_offset := 0x2000 + s2
  let fs_offset := st3_offset + s3
  (round_to_sector st2_offset, round_to_sector st3_offset, round_to_sector fs_offset)

/- * * * * * * * * * * * * * * * * * * * * * * * * * * * * * * * * * * * * *
 * `pure64_init` disk-size validation (src/util/pure64.c lines 666-682).
 * * * * * * * * * * * * * * * * * * * * * * * * * * * * * * * * * * * * * -/

/-- The minimum disk size computed by `pure64_init` (src/util/pure64.c lines
666-677): one GPT header (92) + 128 primary partition headers (128 × 128)
+ **one sector per each of the 128 partitions** (128 × 512, per the code's
comment "at least one sector per partition") + 128 backup partition headers
+ one backup GPT header. -/
def pure64_init_minimum_size : Nat := 92 + 128 * 128 + 128 * 512 + 128 * 128 + 92

/-- The size validation of `pure64_init` (lines 679-682): a requested size is
accepted exactly when it is not strictly below the minimum. -/
def pure64_init_size_ok (disk_size : Nat) : Bool :=
  decide (pure64_init_minimum_size ≤ disk_size)

/- * * * * * * * * * * * * * * * * * * * * * * * * * * * * * * * * * * * * *
 * Final padding of `ramfs_export` (src/util/pure64.c lines 550-563).
 * * * * * * * * * * * * * * * * * * * * * * * * * * * * * * * * * * * * * -/

/-- `PURE64_MINIMUM_DISK_SIZE` (src/util/pure64.c line 35): 1 MiB. -/
def PURE64_MINIMUM_DISK_SIZE : Nat := 1 * 1024 * 1024

/-- The padding step of `ramfs_export` (lines 550-563): `pos` is the write
position after exporting the filesystem (equal to the file length, since all
earlier writes lie at or below it).  If `pos` is short of the minimum disk
size, a zero byte is written at `minimum - 1`, extending the file to the
minimum; otherwise, if `pos` is not sector-aligned, a zero byte is written at
`pos + (512 - pos % 512) - 1`, extending the file to the next 512-byte
multiple; otherwise nothing is written. -/
def ramfs_padded_size (pos : Nat) : Nat :=
  if pos < PURE64_MINIMUM_DISK_SIZE then PURE64_MINIMUM_DISK_SIZE
  else if pos % 512 ≠ 0 then pos + (512 - pos % 512)
  else pos

/- * * * * * * * * * * * * * * * * * * * * * * * * * * * * * * * * * * * * *
 * Byte-addressed disk model for the GPT checksum pass.
 * The open `FILE` is a byte map `Nat → Nat`; seek+read is `disk_read`,
 * seek+write is `disk_write`.  All offsets touched by the pass are in
 * range on an init-produced disk (hypotheses of the theorems below), so
 * reads always deliver their full length here, matching the successful
 * completion the claims describe.
 * * * * * * * * * * * * * * * * * * * * * * * * * * * * * * * * * * * * * -/

def disk_write (d : Nat → Nat) (off : Nat) (bs : List Nat) : Nat → Nat :=
  fun i => if off ≤ i ∧ i < off + bs.length then bs.getD (i - off) 0 else d i

def disk_read (d : Nat → Nat) (off len : Nat) : List Nat :=
  (List.range len).map fun i => d (off + i)

/-- The little-endian value of a byte list (each entry a `uint8_t`, hence
`% 256`), as `fread` into a host-native (x86-64, little-endian) integer
produces. -/
def le_value : List Nat → Nat
  | [] => 0
  | b :: bs => b % 256 + 256 * le_value bs

/-- `fwrite(&checksum, 1, 4, file)` of a `uint32_t` on the host-native
little-endian target: the four bytes of the value. -/
def le32_bytes (n : Nat) : List Nat :=
  [n % 256, n / 256 % 256, n / 256 ^ 2 % 256, n / 256 ^ 3 % 256]

/-- `fread` of a 4-byte `uint32_t` at `off`. -/
def read_le32 (d : Nat → Nat) (off : Nat) : Nat := le_value (disk_read d off 4)

/-- `fread` of an 8-byte `uint64_t` at `off` (used for `backup_lba`). -/
def read_le64 (d : Nat → Nat) (off : Nat) : Nat := le_value (disk_read d off 8)

/- * * * * * * * * * * * * * * * * * * * * * * * * * * * * * * * * * * * * *
 * GPT checksum pass (src/util/pure64.c lines 93-237).
 * * * * * * * * * * * * * * * * * * * * * * * * * * * * * * * * * * * * * -/

/-- The offset `backup_lba * 512 - 128·128` of the backup partition-entry
array: where `pure64_init` zeroes it (src/util/pure64.c line 749) and where
`calculate_partition_headers_checksum` reads it back (line 181).  The C code
subtracts in `uint64_t`; on every state the functions below are applied to,
`16384 ≤ backup_lba * 512` (a hypothesis of the theorems), so the `Nat`
subtraction agrees. -/
def backup_partition_array_offset (backup_lba : Nat) : Nat :=
  backup_lba * 512 - 128 * 128

/-- `calculate_header_checksum` (src/util/pure64.c lines 93-132): read the 92
header bytes at `loc`, CRC32 them, write the checksum into the 4 bytes at
`loc + 16`. -/
def calculate_header_checksum (d : Nat → Nat) (loc : Nat) : Nat → Nat :=
  disk_write d (loc + 16) (le32_bytes (crc32 (disk_read d loc 92)))

/-- First half of `calculate_partition_headers_checksum` (lines 144-169):
read the 128 × 128-byte primary partition-entry array at offset 1024, CRC32
it, write the checksum at `512 + 88` (the primary header's partition-array
checksum field). -/
def patch_primary_array_checksum (d : Nat → Nat) : Nat → Nat :=
  disk_write d (512 + 88) (le32_bytes (crc32 (disk_read d 1024 16384)))

/-- Second half of `calculate_partition_headers_checksum` (lines 171-201):
read `backup_lba` from the primary header (offset `512 + 32`), read the
backup partition-entry array at `backup_lba * 512 - 128·128`, CRC32 it,
write the checksum at `backup_lba * 512 + 88` (the backup header's
partition-array checksum field). -/
def patch_backup_array_checksum (d : Nat → Nat) : Nat → Nat :=
  disk_write d (read_le64 d (512 + 32) * 512 + 88)
    (le32_bytes (crc32
      (disk_read d (backup_partition_array_offset (read_le64 d (512 + 32))) 16384)))

/-- `calculate_partition_headers_checksum` (lines 134-206): primary array
checksum first, then — reading `backup_lba` from the already-patched file —
the backup array checksum. -/
def calculate_partition_headers_checksum (d : Nat → Nat) : Nat → Nat :=
  patch_backup_array_checksum (patch_primary_array_checksum d)

/-- `calculate_checksums` (lines 208-237): both partition-entry-array
checksums first, then the primary header checksum at offset 512, then —
re-reading `backup_lba` at `512 + 32` — the backup header checksum at
`backup_lba * 512`. -/
def calculate_checksums (d : Nat → Nat) : Nat → Nat :=
  calculate_header_checksum
    (calculate_header_checksum (calculate_partition_headers_checksum d) 512)
    (read_le64 (calculate_header_checksum (calculate_partition_headers_checksum d) 512)
      (512 + 32) * 512)

/-- A GPT header at byte offset `loc` validates: recomputing CRC32 over its
92 bytes with the 4-byte header-checksum field at relative offset 16 taken
as zero reproduces the checksum value stored in that field. -/
def header_checksum_valid (d : Nat → Nat) (loc : Nat) : Prop :=
  crc32 (disk_read d loc 16 ++ [0, 0, 0, 0] ++ disk_read d (loc + 20) 72) =
    read_le32 d (loc + 16)

/-- A disk whose primary-header backup-LBA field reads as 68 and whose
header-checksum fields are zero: a minimal state satisfying the
preconditions of the checksum-pass theorem. -/
def sample_disk : Nat → Nat := fun i => if i = 512 + 32 then 68 else 0

/- * * * * * * * * * * * * * * * * * * * * * * * * * * * * * * * * * * * * *
 * GPT header construction in `pure64_init` (src/util/pure64.c lines
 * 245-253, 718-772).  The 16-byte disk UUID is parsed from a string and
 * does not bear on the LBA fields, so it is omitted from the model.
 * * * * * * * * * * * * * * * * * * * * * * * * * * * * * * * * * * * * * -/

structure gpt_header where
  current_lba : Nat
  backup_lba : Nat
  first_usable_lba : Nat
  last_usable_lba : Nat
  partition_headers_lba : Nat
  partition_header_count : Nat

/-- The primary GPT header as `pure64_init` fills it in (src/util/pure64.c
lines 718-735) for the (already sector-rounded) `disk_size`:
`backup_lba = (disk_size - 512) / 512`, partition array at LBA 2. -/
def pure64_init_primary_header (disk_size : Nat) : gpt_header :=
  { current_lba := 1
    backup_lba := (disk_size - 512) / 512
    first_usable_lba := ((1 + 1) * 512 + 128 * 128) / 512
    last_usable_lba := ((disk_size - 512) / 512 * 512 - 128 * 128 - 512) / 512
    partition_headers_lba := 2
    partition_header_count := 128 }

/-- The backup GPT header (src/util/pure64.c lines 765-772): starting from
the primary header's values, `partition_headers_lba` becomes
`(backup_lba * 512 - 128·128 - 512) / 512`, and current/backup LBAs swap. -/
def pure64_init_backup_header (disk_size : Nat) : gpt_header :=
  let p := pure64_init_primary_header disk_size
  { p with
    partition_headers_lba := (p.backup_lba * 512 - 128 * 128 - 512) / 512
    current_lba := p.backup_lba
    backup_lba := 1 }

/- * * * * * * * * * * * * * * * * * * * * * * * * * * * * * * * * * * * * *
 * Theorems.
 * * * * * * * * * * * * * * * * * * * * * * * * * * * * * * * * * * * * * -/
theorem decode_encode_uint64 (n : Nat) (h : n < 2 ^ 64) (rest : List Nat) :
    decode_uint64 (encode_uint64 n ++ rest) = some (n, rest) := by
  simp only [encode_uint64, List.cons_append, List.nil_append, decode_uint64,
    Option.some.injEq, Prod.mk.injEq, and_true]
  omega

theorem stream_read_bytes_append (xs rest : List Nat) :
    stream_read_bytes xs.length (xs ++ rest) = some (xs, rest) := by
  simp [stream_read_bytes]

theorem crc32_bits_lt (j crc : Nat) (h : crc < 2 ^ 32) : crc32_bits j crc < 2 ^ 32 := by
  induction j generalizing crc with
  | zero => simpa [crc32_bits] using h
  | succ j ih =>
      simp only [crc32_bits]
      exact ih _ (Nat.mod_lt _ (by norm_num))

theorem crc32_step_lt (crc b : Nat) : crc32_step crc b < 2 ^ 32 := by
  unfold crc32_step
  exact crc32_bits_lt _ _ (Nat.mod_lt _ (by norm_num))

theorem crc32_foldl_lt (buf : List Nat) (acc : Nat) (h : acc < 2 ^ 32) :
    buf.foldl crc32_step acc < 2 ^ 32 := by
  induction buf generalizing acc with
  | nil => simpa using h
  | cons b bs ih => exact ih _ (crc32_step_lt _ _)

theorem crc32_lt (buf : List Nat) : crc32 buf < 2 ^ 32 := by
  unfold crc32
  exact Nat.xor_lt_two_pow (crc32_foldl_lt _ _ (by norm_num)) (by norm_num)

/-- **C2.** The CRC32 engine is the standard reflected CRC-32 (initial
register `0xFFFFFFFF`, polynomial `0xEDB88320` applied low-bit first, final
complement, all as defined in `crc32` above, a transcription of
src/util/pure64.c lines 68-91); it maps the empty input to `0x00000000` and
the 9 ASCII bytes of `"123456789"` to the reference value `0xCBF43926`. -/
theorem C2_crc32_reference_vectors :
    crc32 [] = 0x00000000 ∧
    crc32 [0x31, 0x32, 0x33, 0x34, 0x35, 0x36, 0x37, 0x38, 0x39] = 0xCBF43926 := by
  constructor
  · rfl
  · decide

/- * * * * * * * * * * * * * * * * * * * * * * * * * * * * * * * * * * * * *
 * C1: codec round trip.
 * * * * * * * * * * * * * * * * * * * * * * * * * * * * * * * * * * * * * -/

theorem encode_uint64_length (n : Nat) : (encode_uint64 n).length = 8 := by
  simp [encode_uint64]

theorem pure64_file_import_export (f : pure64_file) (h : pure64_file_wf f = true)
    (rest : List Nat) :
    pure64_file_import (pure64_file_export f ++ rest) = some (f, rest) := by
  simp only [pure64_file_wf, Bool.and_eq_true, decide_eq_true_eq] at h
  simp only [pure64_file_export, List.append_assoc, pure64_file_import,
    decode_encode_uint64 _ h.1, decode_encode_uint64 _ h.2, stream_read_bytes_append]

theorem pure64_files_import_export (fs : List pure64_file)
    (h : fs.all pure64_file_wf = true) (rest : List Nat) :
    pure64_files_import fs.length (pure64_files_export fs ++ rest) = some (fs, rest) := by
  induction fs generalizing rest with
  | nil => simp [pure64_files_export, pure64_files_import]
  | cons f fs ih =>
      simp only [List.all_cons, Bool.and_eq_true] at h
      simp only [pure64_files_export, List.append_assoc, List.length_cons,
        pure64_files_import, pure64_file_import_export f h.1, ih h.2]

theorem pure64_dir_depth_pos (t : pure64_dir) : 1 ≤ pure64_dir_depth t := by
  cases t
  simp [pure64_dir_depth]

theorem pure64_dir_importF_roundtrip (fuel : Nat) :
    ∀ t : pure64_dir, pure64_dir_wf t = true → pure64_dir_depth t ≤ fuel →
    ∀ rest : List Nat,
      pure64_dir_importF fuel (pure64_dir_export t ++ rest) = some (t, rest) := by
  induction fuel with
  | zero =>
      intro t _ hd _
      exact absurd (le_trans (pure64_dir_depth_pos t) hd) (by simp)
  | succ fuel ih =>
      have hdirs : ∀ ds : List pure64_dir, pure64_dirs_wf ds = true →
          pure64_dirs_depth ds ≤ fuel → ∀ r : List Nat,
          pure64_dirs_importF fuel ds.length (pure64_dirs_export ds ++ r) =
            some (ds, r) := by
        intro ds
        induction ds with
        | nil => intro _ _ r; simp [pure64_dirs_export, pure64_dirs_importF]
        | cons d ds ihds =>
            intro hwf hd r
            simp only [pure64_dirs_wf, Bool.and_eq_true] at hwf
            simp only [pure64_dirs_depth, Nat.max_le] at hd
            simp only [pure64_dirs_export, List.append_assoc, List.length_cons,
              pure64_dirs_importF, ih d hwf.1 hd.1, ihds hwf.2 hd.2]
      intro t hwf hd rest
      obtain ⟨name, subdirs, files⟩ := t
      simp only [pure64_dir_wf, Bool.and_eq_true, decide_eq_true_eq] at hwf
      obtain ⟨⟨⟨⟨hn, hs⟩, hf⟩, hfw⟩, hsw⟩ := hwf
      simp only [pure64_dir_depth] at hd
      simp only [pure64_dir_export, List.append_assoc, pure64_dir_importF,
        decode_encode_uint64 _ hn, decode_encode_uint64 _ hs,
        decode_encode_uint64 _ hf, stream_read_bytes_append,
        hdirs subdirs hsw (by omega),
        pure64_files_import_export files hfw]

mutual

theorem pure64_dir_depth_le_export_length :
    ∀ t : pure64_dir, pure64_dir_depth t ≤ (pure64_dir_export t).length
  | .mk name subdirs files => by
      have h := pure64_dirs_depth_le_export_length subdirs
      simp only [pure64_dir_depth, pure64_dir_export, List.length_append,
        encode_uint64_length]
      omega

theorem pure64_dirs_depth_le_export_length :
    ∀ ds : List pure64_dir, pure64_dirs_depth ds ≤ (pure64_dirs_export ds).length
  | [] => by simp [pure64_dirs_depth, pure64_dirs_export]
  | d :: ds => by
      have h1 := pure64_dir_depth_le_export_length d
      have h2 := pure64_dirs_depth_le_export_length ds
      simp only [pure64_dirs_depth, pure64_dirs_export, List.length_append]
      omega

end

/-- **C1.** Round trip of the tree codec: for every tree whose sizes fit the
C `uint64_t` fields (`pure64_dir_wf`) and whose sibling names are unique
(`pure64_dir_unique_names`), decoding the byte stream produced by
`pure64_dir_export` yields exactly the original tree — same structure, same
names, same child order, same file data — with no input left over. -/
theorem C1_dir_export_import_roundtrip (t : pure64_dir)
    (hwf : pure64_dir_wf t = true) (hu : pure64_dir_unique_names t = true) :
    pure64_dir_import (pure64_dir_export t) = some (t, []) := by
  unfold pure64_dir_import
  have h := pure64_dir_importF_roundtrip (pure64_dir_export t).length t hwf
    (pure64_dir_depth_le_export_length t) []
  rwa [List.append_nil] at h

theorem C1_dir_export_import_roundtrip_witness :
    pure64_dir_wf sample_tree = true ∧ pure64_dir_unique_names sample_tree = true ∧
      pure64_dir_import (pure64_dir_export sample_tree) = some (sample_tree, []) :=
  ⟨by decide, by decide,
    C1_dir_export_import_roundtrip sample_tree (by decide) (by decide)⟩

/-- **C7.** Inserting a file or a subdirectory under a name that already
exists among the directory's children (file or subdirectory alike) fails with
the duplicate-name error `PURE64_EEXIST` and returns the directory completely
unchanged, whatever the allocator and set-name outcomes would have been. -/
theorem C7_duplicate_insert_rejected (alloc_ok : Bool) (set_name_err : Nat)
    (d : pure64_dir) (name : List Nat)
    (h : pure64_dir_name_exists d name = true) :
    pure64_dir_add_file alloc_ok set_name_err d name = (PURE64_EEXIST, d) ∧
      pure64_dir_add_subdir alloc_ok set_name_err d name = (PURE64_EEXIST, d) := by
  simp [pure64_dir_add_file, pure64_dir_add_subdir, h]

theorem C7_duplicate_insert_rejected_witness :
    (pure64_dir_name_exists dup_dir [97] = true ∧
      pure64_dir_add_file true 0 dup_dir [97] = (PURE64_EEXIST, dup_dir)) ∧
    (pure64_dir_name_exists dup_dir [98] = true ∧
      pure64_dir_add_subdir false 2 dup_dir [98] = (PURE64_EEXIST, dup_dir)) :=
  ⟨⟨by decide, (C7_duplicate_insert_rejected true 0 dup_dir [97] (by decide)).1⟩,
    ⟨by decide, (C7_duplicate_insert_rejected false 2 dup_dir [98] (by decide)).2⟩⟩

/-- **C10.** When an insert fails because the allocator returned no memory or
because setting the new child's name failed, both insert operations return a
nonzero error code and leave the directory's file count and subdirectory
count (indeed the whole directory) unchanged. -/
theorem C10_insert_error_paths_leave_counts_unchanged (alloc_ok : Bool)
    (set_name_err : Nat) (d : pure64_dir) (name : List Nat)
    (h : alloc_ok = false ∨ set_name_err ≠ 0) :
    ((pure64_dir_add_file alloc_ok set_name_err d name).1 ≠ 0 ∧
      (pure64_dir_add_file alloc_ok set_name_err d name).2 = d) ∧
    ((pure64_dir_add_subdir alloc_ok set_name_err d name).1 ≠ 0 ∧
      (pure64_dir_add_subdir alloc_ok set_name_err d name).2 = d) := by
  unfold pure64_dir_add_file pure64_dir_add_subdir
  rcases h with h | h <;>
    [subst h; skip] <;>
    split_ifs <;>
    simp_all [PURE64_EEXIST, PURE64_ENOMEM]

theorem C10_insert_error_paths_witness :
    ((false = false ∨ (0 : Nat) ≠ 0) ∧
      (pure64_dir_add_file false 0 dup_dir [99]).1 ≠ 0 ∧
      (pure64_dir_add_file false 0 dup_dir [99]).2 = dup_dir) ∧
    ((pure64_dir_add_subdir false 0 dup_dir [99]).1 ≠ 0 ∧
      (pure64_dir_add_subdir false 0 dup_dir [99]).2 = dup_dir) :=
  ⟨⟨Or.inl rfl,
      (C10_insert_error_paths_leave_counts_unchanged false 0 dup_dir [99]
        (Or.inl rfl)).1⟩,
    (C10_insert_error_paths_leave_counts_unchanged false 0 dup_dir [99]
      (Or.inl rfl)).2⟩

/-- **C6.** The stage-size check accepts a binary of exactly `0x7f * 512 =
65024` bytes and rejects one of `65025` bytes; in general it accepts exactly
the sizes up to 65024 bytes. -/
theorem C6_stage_size_ceiling :
    stage_size_ok (0x7f * 512) = true ∧ stage_size_ok (0x7f * 512 + 1) = false ∧
      ∀ size : Nat, stage_size_ok size = true ↔ size ≤ 65024 := by
  refine ⟨by decide, by decide, fun size => ?_⟩
  simp only [stage_size_ok, decide_eq_true_eq]
  omega

/-- **C4.** Evaluation of the layout planner at the failing input
`s2 = 1, s3 = 1` (both sizes pass the stage-size check): the filesystem
offset is computed from the *unrounded* stage-3 offset, so
`st3_offset = fs_offset = 8704` and the offsets are *not* strictly
increasing — the filesystem region starts on top of the stage-3 region. -/
theorem C4_layout_not_strictly_increasing_at_one_one :
    stage_size_ok 1 = true ∧
      ramfs_layout 1 1 = (8192, 8704, 8704) ∧
      ¬ (ramfs_layout 1 1).2.1 < (ramfs_layout 1 1).2.2 := by
  exact ⟨by decide, by decide, by decide⟩

/-- **C5 (counterexample).** The claim takes the minimum to be one GPT header
+ 128 partition entries + *one* usable 512-byte sector + 128 backup entries
+ one backup header = 33464 bytes and asserts that this size is accepted;
`pure64_init` rejects it, because its minimum budgets one sector per each of
the 128 partition slots. -/
theorem C5_claimed_minimum_rejected :
    92 + 128 * 128 + 512 + 128 * 128 + 92 = 33464 ∧
      pure64_init_size_ok 33464 = false :=
  ⟨by decide, by decide⟩

/-- **C5 (amended).** `pure64_init` budgets one 512-byte sector per each of
the 128 partition slots: the minimum is `92 + 128·128 + 128·512 + 128·128 +
92 = 98488` bytes; one byte below it is rejected, the minimum itself is
accepted, and in general exactly the sizes at or above it are accepted. -/
theorem C5_minimum_disk_size :
    pure64_init_minimum_size = 98488 ∧
      pure64_init_size_ok (pure64_init_minimum_size - 1) = false ∧
      pure64_init_size_ok pure64_init_minimum_size = true ∧
      ∀ s : Nat, pure64_init_size_ok s = true ↔ pure64_init_minimum_size ≤ s := by
  refine ⟨by decide, by decide, by decide, fun s => ?_⟩
  simp [pure64_init_size_ok]

/-- **C8.** The final image length is the configured minimum when the write
position `pos` after the filesystem export falls short of it, and otherwise
is `pos` rounded up to the next 512-byte multiple (`pos` itself when already
aligned); in particular it is always a 512-byte multiple and never below the
minimum. -/
theorem C8_final_image_size (pos : Nat) :
    ramfs_padded_size pos =
      (if pos < PURE64_MINIMUM_DISK_SIZE then PURE64_MINIMUM_DISK_SIZE
        else round_to_sector pos) ∧
      ramfs_padded_size pos % 512 = 0 ∧
      PURE64_MINIMUM_DISK_SIZE ≤ ramfs_padded_size pos := by
  unfold ramfs_padded_size round_to_sector PURE64_MINIMUM_DISK_SIZE
  split_ifs <;> refine ⟨by omega, by omega, by omega⟩

@[simp] theorem le32_bytes_length (n : Nat) : (le32_bytes n).length = 4 := rfl

theorem disk_write_apply_outside (d : Nat → Nat) (off : Nat) (bs : List Nat)
    (i : Nat) (h : i < off ∨ off + bs.length ≤ i) :
    disk_write d off bs i = d i := by
  unfold disk_write
  have hc : ¬ (off ≤ i ∧ i < off + bs.length) := by omega
  simp [hc]

theorem disk_read_length (d : Nat → Nat) (off len : Nat) :
    (disk_read d off len).length = len := by
  simp [disk_read]

theorem disk_read_write_disjoint (d : Nat → Nat) (off : Nat) (bs : List Nat)
    (p n : Nat) (h : p + n ≤ off ∨ off + bs.length ≤ p) :
    disk_read (disk_write d off bs) p n = disk_read d p n := by
  unfold disk_read
  refine List.map_congr_left fun i hi => ?_
  rw [List.mem_range] at hi
  exact disk_write_apply_outside _ _ _ _ (by omega)

theorem disk_read_write_eq (d : Nat → Nat) (off : Nat) (bs : List Nat) :
    disk_read (disk_write d off bs) off bs.length = bs := by
  apply List.ext_getElem (by simp [disk_read_length])
  intro i h1 h2
  simp only [disk_read, List.getElem_map, List.getElem_range, disk_write]
  have hc : off ≤ off + i ∧ off + i < off + bs.length := by omega
  simp only [hc, and_self, if_true]
  rw [show off + i - off = i by omega]
  exact List.getD_eq_getElem bs 0 h2

theorem disk_read_split (d : Nat → Nat) (off m n : Nat) :
    disk_read d off (m + n) = disk_read d off m ++ disk_read d (off + m) n := by
  unfold disk_read
  rw [List.range_add, List.map_append, List.map_map]
  congr 1
  refine List.map_congr_left fun i _ => ?_
  simp [Function.comp, Nat.add_assoc]

theorem read_le64_write_disjoint (d : Nat → Nat) (off : Nat) (bs : List Nat)
    (p : Nat) (h : p + 8 ≤ off ∨ off + bs.length ≤ p) :
    read_le64 (disk_write d off bs) p = read_le64 d p := by
  unfold read_le64
  rw [disk_read_write_disjoint _ _ _ _ _ h]

theorem read_le32_write_disjoint (d : Nat → Nat) (off : Nat) (bs : List Nat)
    (p : Nat) (h : p + 4 ≤ off ∨ off + bs.length ≤ p) :
    read_le32 (disk_write d off bs) p = read_le32 d p := by
  unfold read_le32
  rw [disk_read_write_disjoint _ _ _ _ _ h]

theorem le_value_le32_bytes (c : Nat) (h : c < 2 ^ 32) :
    le_value (le32_bytes c) = c := by
  simp only [le32_bytes, le_value]
  omega

theorem read_le32_write (d : Nat → Nat) (off c : Nat) (h : c < 2 ^ 32) :
    read_le32 (disk_write d off (le32_bytes c)) off = c := by
  unfold read_le32
  rw [show (4 : Nat) = (le32_bytes c).length from rfl, disk_read_write_eq,
    le_value_le32_bytes _ h]

theorem calculate_header_checksum_stored (d : Nat → Nat) (loc : Nat) :
    read_le32 (calculate_header_checksum d loc) (loc + 16) =
      crc32 (disk_read d loc 92) := by
  unfold calculate_header_checksum
  rw [read_le32_write _ _ _ (crc32_lt _)]

theorem calculate_header_checksum_read_disjoint (d : Nat → Nat) (loc p n : Nat)
    (h : p + n ≤ loc + 16 ∨ loc + 20 ≤ p) :
    disk_read (calculate_header_checksum d loc) p n = disk_read d p n := by
  unfold calculate_header_checksum
  exact disk_read_write_disjoint _ _ _ _ _ (by simp only [le32_bytes_length]; omega)

theorem calculate_header_checksum_read_le64_disjoint (d : Nat → Nat) (loc p : Nat)
    (h : p + 8 ≤ loc + 16 ∨ loc + 20 ≤ p) :
    read_le64 (calculate_header_checksum d loc) p = read_le64 d p := by
  unfold read_le64
  rw [calculate_header_checksum_read_disjoint _ _ _ _ h]

theorem header_patch_validates (d : Nat → Nat) (loc : Nat)
    (hz : disk_read d (loc + 16) 4 = [0, 0, 0, 0]) :
    header_checksum_valid (calculate_header_checksum d loc) loc := by
  unfold header_checksum_valid
  rw [calculate_header_checksum_stored,
    calculate_header_checksum_read_disjoint _ _ _ _ (Or.inl (by omega)),
    calculate_header_checksum_read_disjoint _ _ _ _ (Or.inr (by omega))]
  congr 1
  rw [show (92 : Nat) = 16 + (4 + 72) from rfl, disk_read_split, disk_read_split, hz,
    show loc + 16 + 4 = loc + 20 by omega, List.append_assoc]

theorem header_checksum_valid_write_disjoint (d : Nat → Nat) (loc off : Nat)
    (bs : List Nat) (h : loc + 92 ≤ off ∨ off + bs.length ≤ loc)
    (hv : header_checksum_valid d loc) :
    header_checksum_valid (disk_write d off bs) loc := by
  unfold header_checksum_valid at hv ⊢
  rw [disk_read_write_disjoint _ _ _ _ _ (by omega),
    disk_read_write_disjoint _ _ _ _ _ (by omega),
    read_le32_write_disjoint _ _ _ _ (by omega)]
  exact hv

/-- **C3.** On any disk state `d0` as `pure64_init` leaves it before the
checksum pass — `backup_lba` (read little-endian at `512 + 32`) far enough
out that the backup region lies beyond the primary header and primary
partition array (`33792 ≤ backup_lba * 512`; on a real init disk
`backup_lba * 512 = disk_size - 512 ≥ 97976`), no `uint64_t` wrap
(`backup_lba * 512 + 512 ≤ 2 ^ 64`), and both header-checksum fields still
zero as `export_gpt_header` wrote them — the completed `calculate_checksums`
pass leaves both the primary header (offset 512) and the backup header
(offset `backup_lba * 512`) validating: CRC32 over the final 92 header bytes
with the checksum field at relative offset 16 taken as zero equals the
stored checksum.  Moreover `calculate_checksums` factors as the partition
pass first, then the primary header checksum, then the backup header
checksum, so both partition-entry-array checksums (patched at header offset
88, inside the checksummed 92 bytes) are in place before either header
checksum is computed. -/
theorem C3_checksum_pass_validates (d0 : Nat → Nat)
    (hb : 33792 ≤ read_le64 d0 (512 + 32) * 512)
    (hb64 : read_le64 d0 (512 + 32) * 512 + 512 ≤ 2 ^ 64)
    (hzp : disk_read d0 (512 + 16) 4 = [0, 0, 0, 0])
    (hzb : disk_read d0 (read_le64 d0 (512 + 32) * 512 + 16) 4 = [0, 0, 0, 0]) :
    header_checksum_valid (calculate_checksums d0) 512 ∧
      header_checksum_valid (calculate_checksums d0)
        (read_le64 d0 (512 + 32) * 512) ∧
      calculate_checksums d0 =
        calculate_header_checksum
          (calculate_header_checksum (calculate_partition_headers_checksum d0) 512)
          (read_le64
            (calculate_header_checksum (calculate_partition_headers_checksum d0) 512)
            (512 + 32) * 512) := by
  set b := read_le64 d0 (512 + 32) with hbdef
  have F1 : read_le64 (patch_primary_array_checksum d0) (512 + 32) = b := by
    unfold patch_primary_array_checksum
    rw [read_le64_write_disjoint _ _ _ _ (Or.inl (by norm_num))]
  have E2eq : calculate_partition_headers_checksum d0 =
      disk_write (patch_primary_array_checksum d0) (b * 512 + 88)
        (le32_bytes (crc32 (disk_read (patch_primary_array_checksum d0)
          (backup_partition_array_offset b) 16384))) := by
    unfold calculate_partition_headers_checksum patch_backup_array_checksum
    rw [F1]
  have F2 : read_le64 (calculate_partition_headers_checksum d0) (512 + 32) = b := by
    rw [E2eq, read_le64_write_disjoint _ _ _ _ (Or.inl (by omega))]
    exact F1
  have F3 : read_le64
      (calculate_header_checksum (calculate_partition_headers_checksum d0) 512)
      (512 + 32) = b := by
    rw [calculate_header_checksum_read_le64_disjoint _ _ _ (Or.inr (by norm_num))]
    exact F2
  have Hfinal : calculate_checksums d0 =
      calculate_header_checksum
        (calculate_header_checksum (calculate_partition_headers_checksum d0) 512)
        (b * 512) := by
    unfold calculate_checksums
    rw [F3]
  have F4 : disk_read (calculate_partition_headers_checksum d0) (512 + 16) 4 =
      [0, 0, 0, 0] := by
    rw [E2eq, disk_read_write_disjoint _ _ _ _ _ (Or.inl (by omega))]
    unfold patch_primary_array_checksum
    rw [disk_read_write_disjoint _ _ _ _ _ (Or.inl (by norm_num))]
    exact hzp
  have F5 : disk_read
      (calculate_header_checksum (calculate_partition_headers_checksum d0) 512)
      (b * 512 + 16) 4 = [0, 0, 0, 0] := by
    rw [calculate_header_checksum_read_disjoint _ _ _ _ (Or.inr (by omega)),
      E2eq, disk_read_write_disjoint _ _ _ _ _ (Or.inl (by omega))]
    unfold patch_primary_array_checksum
    rw [disk_read_write_disjoint _ _ _ _ _
      (Or.inr (by simp only [le32_bytes_length]; omega))]
    exact hzb
  have Vp : header_checksum_valid
      (calculate_header_checksum (calculate_partition_headers_checksum d0) 512)
      512 := header_patch_validates _ _ F4
  have hch : ∀ (e : Nat → Nat) (loc : Nat), calculate_header_checksum e loc =
      disk_write e (loc + 16) (le32_bytes (crc32 (disk_read e loc 92))) :=
    fun _ _ => rfl
  refine ⟨?_, ?_, rfl⟩
  · rw [Hfinal, hch _ (b * 512)]
    exact header_checksum_valid_write_disjoint _ _ _ _ (Or.inl (by omega)) Vp
  · rw [Hfinal]
    exact header_patch_validates _ _ F5

theorem C3_checksum_pass_validates_witness :
    (33792 ≤ read_le64 sample_disk (512 + 32) * 512 ∧
      read_le64 sample_disk (512 + 32) * 512 + 512 ≤ 2 ^ 64 ∧
      disk_read sample_disk (512 + 16) 4 = [0, 0, 0, 0] ∧
      disk_read sample_disk (read_le64 sample_disk (512 + 32) * 512 + 16) 4 =
        [0, 0, 0, 0]) ∧
    header_checksum_valid (calculate_checksums sample_disk) 512 ∧
      header_checksum_valid (calculate_checksums sample_disk)
        (read_le64 sample_disk (512 + 32) * 512) :=
  ⟨⟨by decide, by decide, by decide, by decide⟩,
    (C3_checksum_pass_validates sample_disk (by decide) (by decide) (by decide)
      (by decide)).1,
    (C3_checksum_pass_validates sample_disk (by decide) (by decide) (by decide)
      (by decide)).2.1⟩

/-- **C9.** In the backup GPT header written by `pure64_init`, the
partition-array LBA field is `(backup_lba * 512 - 128·128 - 512) / 512`,
whose byte offset sits exactly one 512-byte sector *before*
`backup_partition_array_offset backup_lba = backup_lba * 512 - 128·128`,
the offset at which init actually zeroes the backup partition-entry array
(line 749) and from which the checksum pass reads it back (line 181, the
`backup_partition_array_offset` occurrence inside
`patch_backup_array_checksum`); the primary header's partition-array LBA
field is 2. -/
theorem C9_backup_partition_array_lba_one_sector_early (disk_size : Nat)
    (h512 : disk_size % 512 = 0) (hmin : 98488 ≤ disk_size) :
    (pure64_init_backup_header disk_size).partition_headers_lba =
      ((pure64_init_primary_header disk_size).backup_lba * 512
        - 128 * 128 - 512) / 512 ∧
    (pure64_init_backup_header disk_size).partition_headers_lba * 512 + 512 =
      backup_partition_array_offset
        (pure64_init_primary_header disk_size).backup_lba ∧
    (pure64_init_primary_header disk_size).partition_headers_lba = 2 := by
  refine ⟨rfl, ?_, rfl⟩
  simp only [pure64_init_backup_header, pure64_init_primary_header,
    backup_partition_array_offset]
  omega

theorem C9_backup_partition_array_lba_witness :
    ((98816 : Nat) % 512 = 0 ∧ (98488 : Nat) ≤ 98816) ∧
    (pure64_init_backup_header 98816).partition_headers_lba * 512 + 512 =
      backup_partition_array_offset
        (pure64_init_primary_header 98816).backup_lba :=
  ⟨⟨by decide, by decide⟩,
    (C9_backup_partition_array_lba_one_sector_early 98816 (by decide)
      (by decide)).2.1⟩
